import Mathlib

/-!
# Memberships repository (memberships/memberships_service.go)

A shallow embedding of the data-access component `CypherDriver`: the
statements it assembles, the single batch it hands to the Query Runner, and
the way it maps the runner's answer back to its caller.

The Query Runner (`neoutils.CypherRunner`), the statement library (`neoism`)
and the standard time library are collaborators outside the repository.  They
appear here as parameters:

* `CypherRunner` is a function from the submitted statement list to a
  `BatchResponse` (the returned error, and per statement the rows bound to its
  `Result` and what its `Stats()` reports afterwards);
* `timeParse` stands for `time.Parse(time.RFC3339, ·)`, and `Time.Unix` for
  the `Unix()` method of the parsed instant.

Every operation returns a `Call`: the batches it submitted, in order, and the
values it returned.
-/

namespace Memberships

/-! ## Data model -/

/-- Go error values, seen through their message. -/
abbrev Error := String

/-- An instant of the standard time library, seen through its `Unix()` method:
whole seconds elapsed since 1970-01-01T00:00:00Z. -/
structure Time where
  Unix : Int
  deriving DecidableEq, Repr

/-- Modelled from the spec: the declaration of the `role` record is not among
the source files; its fields are the ones `Read` and `Write` access
(`RoleUUID`, `InceptionDate`, `TerminationDate`). -/
structure role where
  RoleUUID : String
  InceptionDate : String
  TerminationDate : String
  deriving DecidableEq, Repr

/-- Modelled from the spec: the declaration of the identifiers record is not
among the source files; `Write` accesses `FactsetIdentifier` and `UUIDS`. -/
structure alternativeIdentifiers where
  FactsetIdentifier : String
  UUIDS : List String
  deriving DecidableEq, Repr

/-- Modelled from the spec: the declaration of the `membership` record is not
among the source files; its fields are the ones `Read` and `Write` access. -/
structure membership where
  UUID : String
  PrefLabel : String
  PersonUUID : String
  OrganisationUUID : String
  InceptionDate : String
  TerminationDate : String
  MembershipRoles : List role
  AlternativeIdentifiers : alternativeIdentifiers
  deriving DecidableEq, Repr

/-- The zero value `membership{}`. -/
def emptyMembership : membership :=
  { UUID := "", PrefLabel := "", PersonUUID := "", OrganisationUUID := "",
    InceptionDate := "", TerminationDate := "", MembershipRoles := [],
    AlternativeIdentifiers := { FactsetIdentifier := "", UUIDS := [] } }

/-- Modelled from the spec: the constant's declaration is not among the source
files; the value is the label `Initialise` constrains and `Read` matches. -/
def factsetIdentifierLabel : String := "FactsetIdentifier"

/-- Modelled from the spec: the constant's declaration is not among the source
files; the value is the label `Initialise` constrains and `Read` matches. -/
def uppIdentifierLabel : String := "UPPIdentifier"

/-- A value stored in a property set (`map[string]interface{}` holding date
strings and epoch integers). -/
inductive PropValue where
  | str (s : String)
  | int (n : Int)
  deriving DecidableEq, Repr

/-- A property set: a Go map from property name to value, kept as an
association list with at most one entry per key. -/
abbrev Props := List (String × PropValue)

/-- Lookup `params[key]`. -/
def mapGet : Props → String → Option PropValue
  | [], _ => none
  | (k, v) :: rest, key => if k = key then some v else mapGet rest key

/-- Assignment `params[key] = value`: replaces the entry of an existing key,
adds one for a new key. -/
def mapSet : Props → String → PropValue → Props
  | [], key, value => [(key, value)]
  | (k, v) :: rest, key, value =>
    if k = key then (key, value) :: rest else (k, v) :: mapSet rest key value

/-- A statement parameter: a string or a nested property set. -/
inductive ParamValue where
  | str (s : String)
  | props (p : Props)
  deriving DecidableEq, Repr

/-- The `neoism.CypherQuery` fields the repository fills in.  The `Result`
binding is part of the runner's answer (`QueryOutcome`). -/
structure CypherQuery where
  Statement : String
  Parameters : List (String × ParamValue)
  IncludeStats : Bool
  deriving DecidableEq, Repr

/-- The mutation counters of `neoism.Stats` that `Delete` inspects. -/
structure Stats where
  ContainsUpdates : Bool
  LabelsRemoved : Int
  deriving DecidableEq, Repr

/-- What the runner leaves on one statement of a batch: the rows decoded into
its `Result` (typed as the operation declared them) and the value of a later
`Stats()` call on it. -/
structure QueryOutcome where
  membershipRows : List membership
  countRows : List Int
  stats : Except Error Stats

/-- The answer of one `CypherBatch` call: the error it returns (`none` for
nil) and the outcome of each statement, by position in the batch. -/
structure BatchResponse where
  err : Option Error
  outcome : Nat → QueryOutcome

/-- The Query Runner collaborator: `CypherBatch` as a function of the
submitted statement list. -/
abbrev CypherRunner := List CypherQuery → BatchResponse

/-- The observable behaviour of one repository operation: the batches handed
to the runner, in call order, and the returned values. -/
structure Call (α : Type) where
  batches : List (List CypherQuery)
  result : α

/-- A Go run-time panic. -/
inductive Panic where
  | indexOutOfRange (index length : Nat)
  deriving DecidableEq, Repr

/-! ## Statements -/

/-- Statement text of `Read` (lines 36-51). -/
def readStatement : String :=
  "\n\t\tMATCH (m:Membership \x7buuid:\x7buuid\x7d\x7d)-[:HAS_ORGANISATION]->(o:Thing)\n\t\t\t\t\tOPTIONAL MATCH (p:Thing)<-[:HAS_MEMBER]-(m)\n\t\t\t\t\tOPTIONAL MATCH (r:Thing)<-[rr:HAS_ROLE]-(m)\n\t\t\t\t\tOPTIONAL MATCH (upp:UPPIdentifier)-[:IDENTIFIES]->(n)\n\t\t\t\t\tOPTIONAL MATCH (fs:FactsetIdentifier)-[:IDENTIFIES]->(n)\n\t\t\t\t\tWITH p, m, o, upp, fs, collect(\x7broleuuid:r.uuid,inceptionDate:rr.inceptionDate,terminationDate:rr.terminationDate\x7d) as membershipRoles\n\t\t\t\t\treturn\n\t\t\t\t\t\tm.uuid as uuid,\n\t\t\t\t\t\tm.prefLabel as prefLabel,\n\t\t\t\t\t\tm.inceptionDate as inceptionDate,\n\t\t\t\t\t\tm.terminationDate as terminationDate,\n\t\t\t\t\t\to.uuid as organisationUuid,\n\t\t\t\t\t\tp.uuid as personUuid,\n\t\t\t\t\t\tmembershipRoles,\n\t\t\t\t\t\t\x7buuids:collect(distinct upp.value), factsetIdentifier:fs.value\x7d as alternativeIdentifiers"

/-- The identifier-teardown statement of `Write` (lines 101-108). -/
def deletePreviousIdentifiersQuery (uuid : String) : CypherQuery :=
  { Statement := "MATCH (t:Thing \x7buuid:\x7buuid\x7d\x7d)\n\t\tOPTIONAL MATCH (t)<-[iden:IDENTIFIES]-(i)\n\t\tDELETE iden, i"
    Parameters := [("uuid", .str uuid)]
    IncludeStats := false }

/-- The has-member / has-organisation edge delete of `Write` (lines 111-120). -/
def queryDelEntitiesRel (uuid : String) : CypherQuery :=
  { Statement := "MATCH (m:Thing \x7buuid: \x7buuid\x7d\x7d)\n\t\t\t\t\tOPTIONAL MATCH (p:Thing)<-[rm:HAS_MEMBER]-(m)\n\t\t\t\t\tOPTIONAL MATCH (o:Thing)<-[ro:HAS_ORGANISATION]-(m)\n\t\t\t\t\tDELETE rm, ro\n\t\t"
    Parameters := [("uuid", .str uuid)]
    IncludeStats := false }

/-- Source function `createNewIdentifierQuery` (lines 201-214); the statement
is `fmt.Sprintf` of the template with the label in place of `%s`. -/
def createNewIdentifierQuery (uuid identifierLabel identifierValue : String) : CypherQuery :=
  let statementTemplate :=
    "MERGE (t:Thing \x7buuid:\x7buuid\x7d\x7d)\n\t\t\t\t\tCREATE (i:Identifier \x7bvalue:\x7bvalue\x7d\x7d)\n\t\t\t\t\tMERGE (t)<-[:IDENTIFIES]-(i)\n\t\t\t\t\tset i : " ++ identifierLabel ++ " "
  { Statement := statementTemplate
    Parameters := [("uuid", .str uuid), ("value", .str identifierValue)]
    IncludeStats := false }

/-- The membership upsert of `Write` (lines 139-155), for the property set
`params` built before it. -/
def createMembershipQuery (m : membership) (params : Props) : CypherQuery :=
  { Statement := "MERGE (m:Thing\t \x7buuid: \x7buuid\x7d\x7d)\n\t\t\t\t\tMERGE (p:Thing \x7buuid: \x7bpersonuuid\x7d\x7d)\n\t\t\t\t\tMERGE (o:Thing \x7buuid: \x7borganisationuuid\x7d\x7d)\n\t\t\t\t\tCREATE(m)-[:HAS_MEMBER]->(p)\n\t\t            CREATE (m)-[:HAS_ORGANISATION]->(o)\n\t\t\t\t\tset m=\x7ballprops\x7d\n\t\t\t\t\tset m :Concept\n\t\t\t\t\tset m :Membership\n\t\t"
    Parameters :=
      [ ("uuid", .str m.UUID),
        ("allprops", .props params),
        ("personuuid", .str m.PersonUUID),
        ("organisationuuid", .str m.OrganisationUUID) ]
    IncludeStats := false }

/-- The has-role edge delete of `Write` (lines 159-167). -/
def queryDelRolesRel (uuid : String) : CypherQuery :=
  { Statement := "MATCH (m:Thing \x7buuid: \x7buuid\x7d\x7d)\n\t\t\t\t\tOPTIONAL MATCH (r:Thing)<-[rr:HAS_ROLE]-(m)\n\t\t\t\t\tDELETE  rr\n\t\t"
    Parameters := [("uuid", .str uuid)]
    IncludeStats := false }

/-- The role create of `Write` (lines 181-193), for the per-role property set
`rrparams` built before it. -/
def createRoleQuery (muuid : String) (mr : role) (rrparams : Props) : CypherQuery :=
  { Statement := "\n\t\t\t\tMERGE (m:Thing \x7buuid:\x7bmuuid\x7d\x7d)\n\t\t\t\tMERGE (r:Thing \x7buuid:\x7bruuid\x7d\x7d)\n\t\t\t\tCREATE (m)-[rel:HAS_ROLE]->(r)\n\t\t\t\tSET rel=\x7brrparams\x7d\n\t\t\t"
    Parameters :=
      [ ("muuid", .str muuid),
        ("ruuid", .str mr.RoleUUID),
        ("rrparams", .props rrparams) ]
    IncludeStats := false }

/-- The label-stripping statement of `Delete` (lines 217-236); it requests
statistics. -/
def clearNode (uuid : String) : CypherQuery :=
  { Statement := "\n\t\t\t\tMATCH (m:Thing \x7buuid: \x7buuid\x7d\x7d)\n\t\t\t\tOPTIONAL MATCH (m)-[prel:HAS_MEMBER]->(p:Thing)\n\t\t\t\tOPTIONAL MATCH (m)-[orel:HAS_ORGANISATION]->(o:Thing)\n\t\t\t\tOPTIONAL MATCH (r:Thing)<-[rrel:HAS_ROLE]-(m)\n\t\t\t\tREMOVE m:Concept\n\t\t\t\tREMOVE m:Membership\n\t\t\t\tSET m=\x7bprops\x7d\n\t\t\t\tDElETE rrel, orel, prel\n\t\t"
    Parameters := [("uuid", .str uuid), ("props", .props [("uuid", .str uuid)])]
    IncludeStats := true }

/-- The orphan-removal statement of `Delete` (lines 238-249). -/
def removeNodeIfUnused (uuid : String) : CypherQuery :=
  { Statement := "\n\t\t\t\tMATCH (m:Thing \x7buuid: \x7buuid\x7d\x7d)\n\t\t\t\tOPTIONAL MATCH (m)-[a]-(x)\n\t\t\t\tWITH m, count(a) AS relCount\n\t\t\t\tWHERE relCount = 0\n\t\t\t\tDELETE m\n\t\t\t"
    Parameters := [("uuid", .str uuid)]
    IncludeStats := false }

/-- The statement of `Read` (lines 35-57). -/
def readQuery (uuid : String) : CypherQuery :=
  { Statement := readStatement
    Parameters := [("uuid", .str uuid)]
    IncludeStats := false }

/-- The statement of `Count` (lines 283-286). -/
def countQuery : CypherQuery :=
  { Statement := "MATCH (n:Membership) return count(n) as c"
    Parameters := []
    IncludeStats := false }

/-! ## Operations -/

/-- Source function `addDateToQueryParams` (lines 297-305).  Returns the
property set as the call leaves it (Go maps are shared with the caller) and
the returned error. -/
def addDateToQueryParams (timeParse : String → Except Error Time)
    (params : Props) (dateName dateVal : String) : Props × Option Error :=
  let params := mapSet params dateName (.str dateVal)
  match timeParse dateVal with
  | .error err => (params, some err)
  | .ok datetimeEpoch =>
    (mapSet params (dateName ++ "Epoch") (.int datetimeEpoch.Unix), none)

/-- The property set `params` that `Write` builds for the membership node
(lines 84-98).  Each `addDateToQueryParams` call is a statement of its own in
the source: its returned error is dropped, its effect on the map is kept. -/
def membershipParams (timeParse : String → Except Error Time) (m : membership) : Props :=
  let params : Props := [("uuid", .str m.UUID)]
  let params :=
    if m.PrefLabel ≠ "" then mapSet params "prefLabel" (.str m.PrefLabel) else params
  let params :=
    if m.InceptionDate ≠ "" then
      (addDateToQueryParams timeParse params "inceptionDate" m.InceptionDate).1
    else params
  let params :=
    if m.TerminationDate ≠ "" then
      (addDateToQueryParams timeParse params "terminationDate" m.TerminationDate).1
    else params
  params

/-- The property set `rrparams` that `Write` builds for one role, starting
from a fresh empty map (lines 171-179); returned errors are dropped as above. -/
def roleParams (timeParse : String → Except Error Time) (mr : role) : Props :=
  let rrparams : Props := []
  let rrparams :=
    if mr.InceptionDate ≠ "" then
      (addDateToQueryParams timeParse rrparams "inceptionDate" mr.InceptionDate).1
    else rrparams
  let rrparams :=
    if mr.TerminationDate ≠ "" then
      (addDateToQueryParams timeParse rrparams "terminationDate" mr.TerminationDate).1
    else rrparams
  rrparams

/-- The statement list `queries` that `Write` accumulates by successive
`append` calls (lines 82-196). -/
def writeQueries (timeParse : String → Except Error Time) (m : membership) :
    List CypherQuery :=
  let queries : List CypherQuery := []
  let params := membershipParams timeParse m
  let queries := queries ++ [deletePreviousIdentifiersQuery m.UUID]
  let queries := queries ++ [queryDelEntitiesRel m.UUID]
  let queries :=
    if m.AlternativeIdentifiers.FactsetIdentifier ≠ "" then
      queries ++ [createNewIdentifierQuery m.UUID factsetIdentifierLabel
        m.AlternativeIdentifiers.FactsetIdentifier]
    else queries
  let queries :=
    m.AlternativeIdentifiers.UUIDS.foldl
      (fun queries alternativeUUID =>
        queries ++ [createNewIdentifierQuery m.UUID uppIdentifierLabel alternativeUUID])
      queries
  let queries := queries ++ [createMembershipQuery m params]
  let queries := queries ++ [queryDelRolesRel m.UUID]
  let queries :=
    m.MembershipRoles.foldl
      (fun queries mr =>
        queries ++ [createRoleQuery m.UUID mr (roleParams timeParse mr)])
      queries
  queries

/-- Source method `CypherDriver.Write` (lines 79-199): builds the statement
list and returns what the runner's `CypherBatch` returns for it. -/
def Write (timeParse : String → Except Error Time) (runner : CypherRunner)
    (m : membership) : Call (Option Error) :=
  let queries := writeQueries timeParse m
  let resp := runner queries
  { batches := [queries], result := resp.err }

/-- Source method `CypherDriver.Read` (lines 32-77).  Result: the record, the
`found` flag and the error. -/
def Read (runner : CypherRunner) (uuid : String) :
    Call (membership × Bool × Option Error) :=
  let query := readQuery uuid
  let resp := runner [query]
  let results := (resp.outcome 0).membershipRows
  let out : membership × Bool × Option Error :=
    match resp.err with
    | some err => (emptyMembership, false, some err)
    | none =>
      match results with
      | [] => (emptyMembership, false, none)
      | result :: _ =>
        if result.MembershipRoles.length = 1
            ∧ (result.MembershipRoles.head?.map role.RoleUUID) = some "" then
          ({ result with MembershipRoles := [] }, true, none)
        else
          (result, true, none)
  { batches := [[query]], result := out }

/-- Source method `CypherDriver.Delete` (lines 216-264).  The error of the
batch call (line 251) is assigned to `err`, and line 253 assigns the error of
`clearNode.Stats()` to the same variable before it is read. -/
def Delete (runner : CypherRunner) (uuid : String) : Call (Bool × Option Error) :=
  let queries := [clearNode uuid, removeNodeIfUnused uuid]
  let resp := runner queries
  let out : Bool × Option Error :=
    match (resp.outcome 0).stats with
    | .error err => (false, some err)
    | .ok s1 =>
      let deleted := s1.ContainsUpdates && decide (s1.LabelsRemoved > 0)
      (deleted, none)
  { batches := [queries], result := out }

/-- Source method `CypherDriver.Count` (lines 277-295).  `results[0]` is
indexed without a length check, so the outcome is a value or a panic. -/
def Count (runner : CypherRunner) : Call (Except Panic (Int × Option Error)) :=
  let query := countQuery
  let resp := runner [query]
  let results := (resp.outcome 0).countRows
  let out : Except Panic (Int × Option Error) :=
    match resp.err with
    | some err => .ok (0, some err)
    | none =>
      match results with
      | [] => .error (.indexOutOfRange 0 0)
      | first :: _ => .ok (first, none)
  { batches := [[query]], result := out }

/-! ## Sample collaborators and inputs -/

/-- A sample time parser: accepts two timestamps, rejects everything else. -/
def sampleTimeParse : String → Except Error Time := fun s =>
  if s = "1970-01-01T00:01:40Z" then .ok { Unix := 100 }
  else if s = "2001-09-09T01:46:40Z" then .ok { Unix := 1000000000 }
  else .error "parsing time: cannot parse as RFC 3339"

/-- A sample runner whose batch succeeds, binds no rows and has no statistics. -/
def quietRunner : CypherRunner := fun _ =>
  { err := none
    outcome := fun _ =>
      { membershipRows := [], countRows := [], stats := .error "no stats returned" } }

/-- A sample membership: one role with both dates, a Factset value and two
alternative uuids. -/
def sampleMembership : membership :=
  { UUID := "m-1", PrefLabel := "Chair", PersonUUID := "p-1", OrganisationUUID := "o-1",
    InceptionDate := "1970-01-01T00:01:40Z", TerminationDate := "",
    MembershipRoles :=
      [{ RoleUUID := "r-1", InceptionDate := "1970-01-01T00:01:40Z",
         TerminationDate := "2001-09-09T01:46:40Z" }],
    AlternativeIdentifiers := { FactsetIdentifier := "F-1", UUIDS := ["a-1", "a-2"] } }

/-- A sample runner whose batch fails; no statistics are available afterwards. -/
def failingRunner : CypherRunner := fun _ =>
  { err := some "connection refused"
    outcome := fun _ =>
      { membershipRows := [], countRows := [], stats := .error "no stats returned" } }

/-- A sample runner whose batch call returns an error although the statistics
of the first statement were filled in. -/
def failingRunnerWithStats : CypherRunner := fun _ =>
  { err := some "connection reset"
    outcome := fun _ =>
      { membershipRows := [], countRows := [],
        stats := .ok { ContainsUpdates := true, LabelsRemoved := 2 } } }

/-- A sample runner whose batch succeeds and whose first statement reports two
removed labels. -/
def statsRunner : CypherRunner := fun _ =>
  { err := none
    outcome := fun _ =>
      { membershipRows := [], countRows := [7],
        stats := .ok { ContainsUpdates := true, LabelsRemoved := 2 } } }

/-- The row the read statement yields for a membership without roles: the
outer join leaves one role entry with an empty roleUUID. -/
def placeholderRow : membership :=
  { UUID := "m-1", PrefLabel := "Chair", PersonUUID := "p-1", OrganisationUUID := "o-1",
    InceptionDate := "", TerminationDate := "",
    MembershipRoles := [{ RoleUUID := "", InceptionDate := "", TerminationDate := "" }],
    AlternativeIdentifiers := { FactsetIdentifier := "F-1", UUIDS := [] } }

/-- A sample runner whose batch succeeds and binds `placeholderRow`. -/
def rowRunner : CypherRunner := fun _ =>
  { err := none
    outcome := fun _ =>
      { membershipRows := [placeholderRow], countRows := [],
        stats := .error "no stats returned" } }

/-- A membership whose inception date is not a timestamp. -/
def badDateMembership : membership :=
  { UUID := "m-2", PrefLabel := "", PersonUUID := "p-1", OrganisationUUID := "o-1",
    InceptionDate := "yesterday", TerminationDate := "", MembershipRoles := [],
    AlternativeIdentifiers := { FactsetIdentifier := "", UUIDS := [] } }

/-- A membership whose uuid is the empty string. -/
def noUuidMembership : membership :=
  { UUID := "", PrefLabel := "", PersonUUID := "p-1", OrganisationUUID := "o-1",
    InceptionDate := "", TerminationDate := "", MembershipRoles := [],
    AlternativeIdentifiers := { FactsetIdentifier := "", UUIDS := [] } }

/-- A runner that answers as `runner` does, except that the outcome of the
statement at position `i` is `o`. -/
def replaceOutcome (runner : CypherRunner) (i : Nat) (o : QueryOutcome) : CypherRunner :=
  fun queries =>
    { err := (runner queries).err
      outcome := fun j => if j = i then o else (runner queries).outcome j }

/-! ## Auxiliary facts -/

theorem mapGet_mapSet_self (params : Props) (key : String) (value : PropValue) :
    mapGet (mapSet params key value) key = some value := by
  induction params with
  | nil => simp [mapSet, mapGet]
  | cons kv rest ih =>
    obtain ⟨k, v⟩ := kv
    by_cases h : k = key
    · simp [mapSet, mapGet, h]
    · simp [mapSet, mapGet, h, ih]

theorem mapGet_mapSet_ne (params : Props) (key other : String) (value : PropValue)
    (h : other ≠ key) : mapGet (mapSet params key value) other = mapGet params other := by
  induction params with
  | nil =>
    have h2 : ¬ key = other := fun e => h e.symm
    simp [mapSet, mapGet, h2]
  | cons kv rest ih =>
    obtain ⟨k, v⟩ := kv
    by_cases hk : k = key
    · have h2 : ¬ key = other := fun e => h e.symm
      subst hk
      simp [mapSet, mapGet, h2]
    · by_cases ho : k = other
      · subst ho
        simp [mapSet, mapGet, h]
      · simp [mapSet, mapGet, hk, ho, ih]

theorem append_epoch_ne (dateName : String) : dateName ++ "Epoch" ≠ dateName := by
  intro h
  have hlen := congrArg String.length h
  rw [String.length_append] at hlen
  have h5 : "Epoch".length = 5 := by decide
  omega

theorem foldl_append_singleton {α β : Type} (f : α → β) (l : List α) (acc : List β) :
    l.foldl (fun queries x => queries ++ [f x]) acc = acc ++ l.map f := by
  induction l generalizing acc with
  | nil => simp
  | cons x xs ih => simp [ih]

theorem getElem?_after (α : Type) (pre post : List α) (x : α) (i : Nat) :
    (pre ++ x :: post)[pre.length]? = some x
      ∧ (pre ++ x :: post)[pre.length + 1 + i]? = post[i]? := by
  constructor
  · rw [List.getElem?_append_right (Nat.le_refl _)]
    simp
  · rw [List.getElem?_append_right (by omega)]
    have : pre.length + 1 + i - pre.length = i + 1 := by omega
    rw [this]
    simp

/-- The statement list of `Write` in closed form. -/
theorem writeQueries_eq (timeParse : String → Except Error Time) (m : membership) :
    writeQueries timeParse m =
      ([deletePreviousIdentifiersQuery m.UUID, queryDelEntitiesRel m.UUID]
        ++ (if m.AlternativeIdentifiers.FactsetIdentifier ≠ "" then
              [createNewIdentifierQuery m.UUID factsetIdentifierLabel
                m.AlternativeIdentifiers.FactsetIdentifier]
            else [])
        ++ m.AlternativeIdentifiers.UUIDS.map
              (createNewIdentifierQuery m.UUID uppIdentifierLabel)
        ++ [createMembershipQuery m (membershipParams timeParse m)])
        ++ queryDelRolesRel m.UUID
          :: m.MembershipRoles.map
              (fun mr => createRoleQuery m.UUID mr (roleParams timeParse mr)) := by
  unfold writeQueries
  simp only [foldl_append_singleton]
  by_cases h : m.AlternativeIdentifiers.FactsetIdentifier = "" <;> simp [h]

theorem addDate_get_name (timeParse : String → Except Error Time) (params : Props)
    (dateName dateVal : String) :
    mapGet (addDateToQueryParams timeParse params dateName dateVal).1 dateName
      = some (.str dateVal) := by
  unfold addDateToQueryParams
  cases timeParse dateVal with
  | error e => simp [mapGet_mapSet_self]
  | ok t =>
    simp only []
    rw [mapGet_mapSet_ne _ _ _ _ (append_epoch_ne dateName).symm, mapGet_mapSet_self]

theorem addDate_get_epoch (timeParse : String → Except Error Time) (params : Props)
    (dateName dateVal : String) (t : Time) (h : timeParse dateVal = .ok t) :
    mapGet (addDateToQueryParams timeParse params dateName dateVal).1 (dateName ++ "Epoch")
      = some (.int t.Unix) := by
  unfold addDateToQueryParams
  simp [h, mapGet_mapSet_self]

theorem addDate_get_other (timeParse : String → Except Error Time) (params : Props)
    (dateName dateVal key : String) (h1 : key ≠ dateName) (h2 : key ≠ dateName ++ "Epoch") :
    mapGet (addDateToQueryParams timeParse params dateName dateVal).1 key
      = mapGet params key := by
  unfold addDateToQueryParams
  cases timeParse dateVal with
  | error e => simp [mapGet_mapSet_ne _ _ _ _ h1]
  | ok t => simp [mapGet_mapSet_ne _ _ _ _ h1, mapGet_mapSet_ne _ _ _ _ h2]

theorem inceptionEpoch_key : "inceptionDate" ++ "Epoch" = "inceptionDateEpoch" := by decide

theorem terminationEpoch_key : "terminationDate" ++ "Epoch" = "terminationDateEpoch" := by
  decide

/-- The base of the membership property set: `uuid`, and `prefLabel` when it
is non-empty; it holds no date key. -/
theorem baseParams_no_date (m : membership) (key : String)
    (h1 : key ≠ "uuid") (h2 : key ≠ "prefLabel") :
    mapGet (if m.PrefLabel ≠ "" then
        mapSet [("uuid", PropValue.str m.UUID)] "prefLabel" (.str m.PrefLabel)
      else [("uuid", PropValue.str m.UUID)]) key = none := by
  have h3 : ¬ "uuid" = key := fun e => h1 e.symm
  have h4 : ¬ "prefLabel" = key := fun e => h2 e.symm
  by_cases hp : m.PrefLabel = "" <;> simp [hp, mapSet, mapGet, h3, h4]

theorem membershipParams_inception (timeParse : String → Except Error Time) (m : membership) :
    (m.InceptionDate ≠ "" → ∀ t, timeParse m.InceptionDate = .ok t →
        mapGet (membershipParams timeParse m) "inceptionDate" = some (.str m.InceptionDate)
        ∧ mapGet (membershipParams timeParse m) "inceptionDateEpoch" = some (.int t.Unix))
    ∧ (m.InceptionDate = "" →
        mapGet (membershipParams timeParse m) "inceptionDate" = none
        ∧ mapGet (membershipParams timeParse m) "inceptionDateEpoch" = none) := by
  have skip : ∀ (p : Props) (key : String), key ≠ "terminationDate" →
      key ≠ "terminationDateEpoch" →
      mapGet (if m.TerminationDate ≠ "" then
          (addDateToQueryParams timeParse p "terminationDate" m.TerminationDate).1
        else p) key = mapGet p key := by
    intro p key k1 k2
    by_cases ht : m.TerminationDate = ""
    · simp [ht]
    · simp only [ne_eq, ht, not_false_eq_true, if_true]
      exact addDate_get_other _ _ _ _ _ k1 (by rw [terminationEpoch_key]; exact k2)
  constructor
  · intro hne t ht
    unfold membershipParams
    simp only [ne_eq, hne, not_false_eq_true, if_true]
    rw [skip _ _ (by decide) (by decide), skip _ _ (by decide) (by decide)]
    refine ⟨addDate_get_name _ _ _ _, ?_⟩
    rw [← inceptionEpoch_key]
    exact addDate_get_epoch _ _ _ _ t ht
  · intro he
    unfold membershipParams
    simp only [ne_eq, he, not_true_eq_false, if_false]
    rw [skip _ _ (by decide) (by decide), skip _ _ (by decide) (by decide)]
    exact ⟨baseParams_no_date m _ (by decide) (by decide),
      baseParams_no_date m _ (by decide) (by decide)⟩

theorem membershipParams_termination (timeParse : String → Except Error Time)
    (m : membership) :
    (m.TerminationDate ≠ "" → ∀ t, timeParse m.TerminationDate = .ok t →
        mapGet (membershipParams timeParse m) "terminationDate"
          = some (.str m.TerminationDate)
        ∧ mapGet (membershipParams timeParse m) "terminationDateEpoch"
          = some (.int t.Unix))
    ∧ (m.TerminationDate = "" →
        mapGet (membershipParams timeParse m) "terminationDate" = none
        ∧ mapGet (membershipParams timeParse m) "terminationDateEpoch" = none) := by
  have skip : ∀ (p : Props) (key : String), key ≠ "inceptionDate" →
      key ≠ "inceptionDateEpoch" →
      mapGet (if m.InceptionDate ≠ "" then
          (addDateToQueryParams timeParse p "inceptionDate" m.InceptionDate).1
        else p) key = mapGet p key := by
    intro p key k1 k2
    by_cases ht : m.InceptionDate = ""
    · simp [ht]
    · simp only [ne_eq, ht, not_false_eq_true, if_true]
      exact addDate_get_other _ _ _ _ _ k1 (by rw [inceptionEpoch_key]; exact k2)
  constructor
  · intro hne t ht
    unfold membershipParams
    simp only [ne_eq, hne, not_false_eq_true, if_true]
    refine ⟨addDate_get_name _ _ _ _, ?_⟩
    rw [← terminationEpoch_key]
    exact addDate_get_epoch _ _ _ _ t ht
  · intro he
    unfold membershipParams
    simp only [ne_eq, he, not_true_eq_false, if_false]
    rw [skip _ _ (by decide) (by decide), skip _ _ (by decide) (by decide)]
    exact ⟨baseParams_no_date m _ (by decide) (by decide),
      baseParams_no_date m _ (by decide) (by decide)⟩

theorem roleParams_inception (timeParse : String → Except Error Time) (mr : role) :
    (mr.InceptionDate ≠ "" → ∀ t, timeParse mr.InceptionDate = .ok t →
        mapGet (roleParams timeParse mr) "inceptionDate" = some (.str mr.InceptionDate)
        ∧ mapGet (roleParams timeParse mr) "inceptionDateEpoch" = some (.int t.Unix))
    ∧ (mr.InceptionDate = "" →
        mapGet (roleParams timeParse mr) "inceptionDate" = none
        ∧ mapGet (roleParams timeParse mr) "inceptionDateEpoch" = none) := by
  have skip : ∀ (p : Props) (key : String), key ≠ "terminationDate" →
      key ≠ "terminationDateEpoch" →
      mapGet (if mr.TerminationDate ≠ "" then
          (addDateToQueryParams timeParse p "terminationDate" mr.TerminationDate).1
        else p) key = mapGet p key := by
    intro p key k1 k2
    by_cases ht : mr.TerminationDate = ""
    · simp [ht]
    · simp only [ne_eq, ht, not_false_eq_true, if_true]
      exact addDate_get_other _ _ _ _ _ k1 (by rw [terminationEpoch_key]; exact k2)
  constructor
  · intro hne t ht
    unfold roleParams
    simp only [ne_eq, hne, not_false_eq_true, if_true]
    rw [skip _ _ (by decide) (by decide), skip _ _ (by decide) (by decide)]
    refine ⟨addDate_get_name _ _ _ _, ?_⟩
    rw [← inceptionEpoch_key]
    exact addDate_get_epoch _ _ _ _ t ht
  · intro he
    unfold roleParams
    simp only [ne_eq, he, not_true_eq_false, if_false]
    rw [skip _ _ (by decide) (by decide), skip _ _ (by decide) (by decide)]
    exact ⟨rfl, rfl⟩

theorem roleParams_termination (timeParse : String → Except Error Time) (mr : role) :
    (mr.TerminationDate ≠ "" → ∀ t, timeParse mr.TerminationDate = .ok t →
        mapGet (roleParams timeParse mr) "terminationDate"
          = some (.str mr.TerminationDate)
        ∧ mapGet (roleParams timeParse mr) "terminationDateEpoch" = some (.int t.Unix))
    ∧ (mr.TerminationDate = "" →
        mapGet (roleParams timeParse mr) "terminationDate" = none
        ∧ mapGet (roleParams timeParse mr) "terminationDateEpoch" = none) := by
  have skip : ∀ (p : Props) (key : String), key ≠ "inceptionDate" →
      key ≠ "inceptionDateEpoch" →
      mapGet (if mr.InceptionDate ≠ "" then
          (addDateToQueryParams timeParse p "inceptionDate" mr.InceptionDate).1
        else p) key = mapGet p key := by
    intro p key k1 k2
    by_cases ht : mr.InceptionDate = ""
    · simp [ht]
    · simp only [ne_eq, ht, not_false_eq_true, if_true]
      exact addDate_get_other _ _ _ _ _ k1 (by rw [inceptionEpoch_key]; exact k2)
  constructor
  · intro hne t ht
    unfold roleParams
    simp only [ne_eq, hne, not_false_eq_true, if_true]
    refine ⟨addDate_get_name _ _ _ _, ?_⟩
    rw [← terminationEpoch_key]
    exact addDate_get_epoch _ _ _ _ t ht
  · intro he
    unfold roleParams
    simp only [ne_eq, he, not_true_eq_false, if_false]
    rw [skip _ _ (by decide) (by decide), skip _ _ (by decide) (by decide)]
    exact ⟨rfl, rfl⟩

theorem createFactsetIdentifier_eq (uuid identifierValue : String) :
    createNewIdentifierQuery uuid factsetIdentifierLabel identifierValue =
      { Statement := "MERGE (t:Thing \x7buuid:\x7buuid\x7d\x7d)\n\t\t\t\t\tCREATE (i:Identifier \x7bvalue:\x7bvalue\x7d\x7d)\n\t\t\t\t\tMERGE (t)<-[:IDENTIFIES]-(i)\n\t\t\t\t\tset i : FactsetIdentifier "
        Parameters := [("uuid", .str uuid), ("value", .str identifierValue)]
        IncludeStats := false } := by
  simp only [createNewIdentifierQuery, factsetIdentifierLabel, CypherQuery.mk.injEq, and_true]
  decide

theorem createUppIdentifier_eq (uuid : String) :
    createNewIdentifierQuery uuid uppIdentifierLabel =
      fun identifierValue =>
        { Statement := "MERGE (t:Thing \x7buuid:\x7buuid\x7d\x7d)\n\t\t\t\t\tCREATE (i:Identifier \x7bvalue:\x7bvalue\x7d\x7d)\n\t\t\t\t\tMERGE (t)<-[:IDENTIFIES]-(i)\n\t\t\t\t\tset i : UPPIdentifier "
          Parameters := [("uuid", .str uuid), ("value", .str identifierValue)]
          IncludeStats := false } := by
  funext identifierValue
  simp only [createNewIdentifierQuery, uppIdentifierLabel, CypherQuery.mk.injEq, and_true]
  decide

/-- Keys of the membership property set other than the four date keys are the
ones set before the dates: `uuid`, and `prefLabel` when it is non-empty. -/
theorem membershipParams_get_base (timeParse : String → Except Error Time) (m : membership)
    (key : String) (k1 : key ≠ "inceptionDate") (k2 : key ≠ "inceptionDateEpoch")
    (k3 : key ≠ "terminationDate") (k4 : key ≠ "terminationDateEpoch") :
    mapGet (membershipParams timeParse m) key =
      mapGet (if m.PrefLabel ≠ "" then
          mapSet [("uuid", PropValue.str m.UUID)] "prefLabel" (.str m.PrefLabel)
        else [("uuid", PropValue.str m.UUID)]) key := by
  unfold membershipParams
  by_cases hi : m.InceptionDate = "" <;> by_cases ht : m.TerminationDate = ""
  · simp [hi, ht]
  · simp only [ne_eq, hi, ht, not_true_eq_false, not_false_eq_true, if_true, if_false]
    rw [addDate_get_other _ _ _ _ _ k3 (by rw [terminationEpoch_key]; exact k4)]
  · simp only [ne_eq, hi, ht, not_true_eq_false, not_false_eq_true, if_true, if_false]
    rw [addDate_get_other _ _ _ _ _ k1 (by rw [inceptionEpoch_key]; exact k2)]
  · simp only [ne_eq, hi, ht, not_true_eq_false, not_false_eq_true, if_true, if_false]
    rw [addDate_get_other _ _ _ _ _ k3 (by rw [terminationEpoch_key]; exact k4),
      addDate_get_other _ _ _ _ _ k1 (by rw [inceptionEpoch_key]; exact k2)]

/-! ## Claims -/

/-- C1: for every membership `m`, `Write` hands the runner exactly one batch,
and that batch is, in order and with the statement text and parameters
written out: the identifier teardown with `uuid = m.UUID`; the
has-member/has-organisation edge delete with `uuid = m.UUID`; a Factset
identifier create (label `FactsetIdentifier`, `value` the Factset value)
exactly when that value is non-empty; one other-system identifier create
(label `UPPIdentifier`) per alternative uuid, in input order, each with its
own `value`; the membership upsert carrying `uuid`, `personuuid`,
`organisationuuid` and the built property set as `allprops`; the has-role
edge delete with `uuid = m.UUID`; one role create per role, in input order,
with `muuid = m.UUID`, `ruuid` the role uuid and its per-role property set.
The batch has `4 + (1 if Factset) + |alternative uuids| + |roles|`
statements, the has-role delete sits at position
`3 + (1 if Factset) + |alternative uuids|` and the i-th role create right
after it at offset `i`.  The built property set binds `uuid` to `m.UUID`,
`prefLabel` to the label exactly when it is non-empty, and holds no key other
than these two and the four date keys. -/
theorem Write_submits_one_ordered_batch (timeParse : String → Except Error Time)
    (runner : CypherRunner) (m : membership) :
    ∃ batch : List CypherQuery,
      (Write timeParse runner m).batches = [batch]
      ∧ batch =
          [({ Statement := "MATCH (t:Thing \x7buuid:\x7buuid\x7d\x7d)\n\t\tOPTIONAL MATCH (t)<-[iden:IDENTIFIES]-(i)\n\t\tDELETE iden, i",
                    Parameters := [("uuid", .str m.UUID)],
                    IncludeStats := false } : CypherQuery),
           ({ Statement := "MATCH (m:Thing \x7buuid: \x7buuid\x7d\x7d)\n\t\t\t\t\tOPTIONAL MATCH (p:Thing)<-[rm:HAS_MEMBER]-(m)\n\t\t\t\t\tOPTIONAL MATCH (o:Thing)<-[ro:HAS_ORGANISATION]-(m)\n\t\t\t\t\tDELETE rm, ro\n\t\t",
                     Parameters := [("uuid", .str m.UUID)],
                     IncludeStats := false } : CypherQuery)]
          ++ (if m.AlternativeIdentifiers.FactsetIdentifier ≠ "" then
                [({ Statement := "MERGE (t:Thing \x7buuid:\x7buuid\x7d\x7d)\n\t\t\t\t\tCREATE (i:Identifier \x7bvalue:\x7bvalue\x7d\x7d)\n\t\t\t\t\tMERGE (t)<-[:IDENTIFIES]-(i)\n\t\t\t\t\tset i : FactsetIdentifier ",
                           Parameters := [("uuid", .str m.UUID), ("value", .str m.AlternativeIdentifiers.FactsetIdentifier)],
                           IncludeStats := false } : CypherQuery)]
              else [])
          ++ m.AlternativeIdentifiers.UUIDS.map
              (fun alternativeUUID =>
                ({ Statement := "MERGE (t:Thing \x7buuid:\x7buuid\x7d\x7d)\n\t\t\t\t\tCREATE (i:Identifier \x7bvalue:\x7bvalue\x7d\x7d)\n\t\t\t\t\tMERGE (t)<-[:IDENTIFIES]-(i)\n\t\t\t\t\tset i : UPPIdentifier ",
                          Parameters := [("uuid", .str m.UUID), ("value", .str alternativeUUID)],
                          IncludeStats := false } : CypherQuery))
          ++ [({ Statement := "MERGE (m:Thing\t \x7buuid: \x7buuid\x7d\x7d)\n\t\t\t\t\tMERGE (p:Thing \x7buuid: \x7bpersonuuid\x7d\x7d)\n\t\t\t\t\tMERGE (o:Thing \x7buuid: \x7borganisationuuid\x7d\x7d)\n\t\t\t\t\tCREATE(m)-[:HAS_MEMBER]->(p)\n\t\t            CREATE (m)-[:HAS_ORGANISATION]->(o)\n\t\t\t\t\tset m=\x7ballprops\x7d\n\t\t\t\t\tset m :Concept\n\t\t\t\t\tset m :Membership\n\t\t",
                        Parameters := [("uuid", .str m.UUID), ("allprops", .props (membershipParams timeParse m)),
                            ("personuuid", .str m.PersonUUID), ("organisationuuid", .str m.OrganisationUUID)],
                        IncludeStats := false } : CypherQuery),
              ({ Statement := "MATCH (m:Thing \x7buuid: \x7buuid\x7d\x7d)\n\t\t\t\t\tOPTIONAL MATCH (r:Thing)<-[rr:HAS_ROLE]-(m)\n\t\t\t\t\tDELETE  rr\n\t\t",
                        Parameters := [("uuid", .str m.UUID)],
                        IncludeStats := false } : CypherQuery)]
          ++ m.MembershipRoles.map
              (fun mr : role =>
                ({ Statement := "\n\t\t\t\tMERGE (m:Thing \x7buuid:\x7bmuuid\x7d\x7d)\n\t\t\t\tMERGE (r:Thing \x7buuid:\x7bruuid\x7d\x7d)\n\t\t\t\tCREATE (m)-[rel:HAS_ROLE]->(r)\n\t\t\t\tSET rel=\x7brrparams\x7d\n\t\t\t",
                          Parameters := [("muuid", .str m.UUID), ("ruuid", .str mr.RoleUUID),
                              ("rrparams", .props (roleParams timeParse mr))],
                          IncludeStats := false } : CypherQuery))
      ∧ batch.length =
          4 + (if m.AlternativeIdentifiers.FactsetIdentifier ≠ "" then 1 else 0)
            + m.AlternativeIdentifiers.UUIDS.length + m.MembershipRoles.length
      ∧ batch[3 + (if m.AlternativeIdentifiers.FactsetIdentifier ≠ "" then 1 else 0)
              + m.AlternativeIdentifiers.UUIDS.length]? =
          some ({ Statement := "MATCH (m:Thing \x7buuid: \x7buuid\x7d\x7d)\n\t\t\t\t\tOPTIONAL MATCH (r:Thing)<-[rr:HAS_ROLE]-(m)\n\t\t\t\t\tDELETE  rr\n\t\t",
                      Parameters := [("uuid", .str m.UUID)],
                      IncludeStats := false } : CypherQuery)
      ∧ (∀ i : Nat,
          batch[3 + (if m.AlternativeIdentifiers.FactsetIdentifier ≠ "" then 1 else 0)
              + m.AlternativeIdentifiers.UUIDS.length + 1 + i]? =
            (m.MembershipRoles[i]?).map
              (fun mr : role =>
              ({ Statement := "\n\t\t\t\tMERGE (m:Thing \x7buuid:\x7bmuuid\x7d\x7d)\n\t\t\t\tMERGE (r:Thing \x7buuid:\x7bruuid\x7d\x7d)\n\t\t\t\tCREATE (m)-[rel:HAS_ROLE]->(r)\n\t\t\t\tSET rel=\x7brrparams\x7d\n\t\t\t",
                        Parameters := [("muuid", .str m.UUID), ("ruuid", .str mr.RoleUUID),
                            ("rrparams", .props (roleParams timeParse mr))],
                        IncludeStats := false } : CypherQuery)))
      ∧ mapGet (membershipParams timeParse m) "uuid" = some (.str m.UUID)
      ∧ (m.PrefLabel ≠ "" →
          mapGet (membershipParams timeParse m) "prefLabel" = some (.str m.PrefLabel))
      ∧ (m.PrefLabel = "" → mapGet (membershipParams timeParse m) "prefLabel" = none)
      ∧ (∀ key : String, key ≠ "uuid" → key ≠ "prefLabel" →
          key ≠ "inceptionDate" → key ≠ "inceptionDateEpoch" →
          key ≠ "terminationDate" → key ≠ "terminationDateEpoch" →
          mapGet (membershipParams timeParse m) key = none) := by
  have hlen :
      ([deletePreviousIdentifiersQuery m.UUID, queryDelEntitiesRel m.UUID]
        ++ (if m.AlternativeIdentifiers.FactsetIdentifier ≠ "" then
              [createNewIdentifierQuery m.UUID factsetIdentifierLabel
                m.AlternativeIdentifiers.FactsetIdentifier]
            else [])
        ++ m.AlternativeIdentifiers.UUIDS.map
              (createNewIdentifierQuery m.UUID uppIdentifierLabel)
        ++ [createMembershipQuery m (membershipParams timeParse m)]).length =
      3 + (if m.AlternativeIdentifiers.FactsetIdentifier ≠ "" then 1 else 0)
        + m.AlternativeIdentifiers.UUIDS.length := by
    by_cases h : m.AlternativeIdentifiers.FactsetIdentifier = "" <;> simp [h] <;> omega
  have hdel : (writeQueries timeParse m)[
        3 + (if m.AlternativeIdentifiers.FactsetIdentifier ≠ "" then 1 else 0)
          + m.AlternativeIdentifiers.UUIDS.length]? = some (queryDelRolesRel m.UUID) := by
    rw [writeQueries_eq, ← hlen]
    exact (getElem?_after _ _ _ _ 0).1
  have hrole : ∀ i : Nat, (writeQueries timeParse m)[
        3 + (if m.AlternativeIdentifiers.FactsetIdentifier ≠ "" then 1 else 0)
          + m.AlternativeIdentifiers.UUIDS.length + 1 + i]? =
        (m.MembershipRoles[i]?).map
          (fun mr => createRoleQuery m.UUID mr (roleParams timeParse mr)) := by
    intro i
    rw [writeQueries_eq, ← hlen, (getElem?_after _ _ _ _ i).2]
    simp
  refine ⟨writeQueries timeParse m, rfl, ?_, ?_, ?_, ?_, ?_, ?_, ?_, ?_⟩
  · rw [writeQueries_eq, createUppIdentifier_eq, createFactsetIdentifier_eq]
    simp [deletePreviousIdentifiersQuery, queryDelEntitiesRel, createMembershipQuery,
      queryDelRolesRel, createRoleQuery]
  · rw [writeQueries_eq, List.length_append, hlen]
    simp
    omega
  · rw [hdel]
    rfl
  · intro i
    rw [hrole i]
    rfl
  · rw [membershipParams_get_base _ _ _ (by decide) (by decide) (by decide) (by decide)]
    by_cases hp : m.PrefLabel = "" <;> simp [hp, mapSet, mapGet]
  · intro hp
    rw [membershipParams_get_base _ _ _ (by decide) (by decide) (by decide) (by decide)]
    simp [hp, mapSet, mapGet]
  · intro hp
    rw [membershipParams_get_base _ _ _ (by decide) (by decide) (by decide) (by decide)]
    simp [hp, mapGet]
  · intro key h1 h2 h3 h4 h5 h6
    rw [membershipParams_get_base _ _ _ h3 h4 h5 h6]
    exact baseParams_no_date m key h1 h2

theorem Write_submits_one_ordered_batch_witness :
    (Write sampleTimeParse quietRunner sampleMembership).batches.map List.length = [8]
      ∧ mapGet (membershipParams sampleTimeParse sampleMembership) "prefLabel"
          = some (.str "Chair")
      ∧ mapGet (membershipParams sampleTimeParse sampleMembership) "personuuid" = none := by
  obtain ⟨batch, hb, _, hlen, _, _, _, hpref, _, hother⟩ :=
    Write_submits_one_ordered_batch sampleTimeParse quietRunner sampleMembership
  refine ⟨?_, hpref (by decide), ?_⟩
  · rw [hb, List.map_cons, List.map_nil, hlen]
    decide
  · exact hother "personuuid" (by decide) (by decide) (by decide) (by decide) (by decide)
      (by decide)

/-- C2 (evaluation at the failing input): a membership whose inception date
does not parse.  `addDateToQueryParams` reports the parse error, yet `Write`
drops it: one batch of four statements is submitted, the upsert carries the
raw date string without an epoch key, and `Write` returns the runner's nil. -/
theorem Write_unparseable_date_still_submits :
    badDateMembership.InceptionDate ≠ ""
      ∧ sampleTimeParse badDateMembership.InceptionDate
          = .error "parsing time: cannot parse as RFC 3339"
      ∧ (addDateToQueryParams sampleTimeParse [("uuid", .str "m-2")] "inceptionDate"
            badDateMembership.InceptionDate).2
          = some "parsing time: cannot parse as RFC 3339"
      ∧ (Write sampleTimeParse quietRunner badDateMembership).batches =
          [ [ deletePreviousIdentifiersQuery "m-2",
              queryDelEntitiesRel "m-2",
              createMembershipQuery badDateMembership
                [("uuid", .str "m-2"), ("inceptionDate", .str "yesterday")],
              queryDelRolesRel "m-2" ] ]
      ∧ (Write sampleTimeParse quietRunner badDateMembership).result = none := by
  refine ⟨by decide, ?_, by decide, ?_, by decide⟩
  · simp [sampleTimeParse, badDateMembership]
  · simp [Write, writeQueries, membershipParams, addDateToQueryParams, sampleTimeParse,
      badDateMembership, mapSet]

/-- C3 (evaluation at the failing input): when the batch call of `Delete`
fails, the returned error is not the batch error.  With no statistics
available `Delete` returns the error of `Stats()` in its place; with
statistics available it reports success. -/
theorem Delete_loses_batch_error :
    (failingRunner [clearNode "m-1", removeNodeIfUnused "m-1"]).err
        = some "connection refused"
      ∧ (Delete failingRunner "m-1").result = (false, some "no stats returned")
      ∧ (failingRunnerWithStats [clearNode "m-1", removeNodeIfUnused "m-1"]).err
        = some "connection reset"
      ∧ (Delete failingRunnerWithStats "m-1").result = (true, none) := by
  decide

/-- `Read` returns the batch error unchanged, with the empty record and
`found = false`. -/
theorem Read_returns_batch_error (runner : CypherRunner) (uuid : String) (e : Error)
    (h : (runner [readQuery uuid]).err = some e) :
    (Read runner uuid).result = (emptyMembership, false, some e) := by
  simp [Read, h]

/-- `Write` returns whatever the batch call returns. -/
theorem Write_returns_batch_result (timeParse : String → Except Error Time)
    (runner : CypherRunner) (m : membership) :
    (Write timeParse runner m).result = (runner (writeQueries timeParse m)).err := rfl

/-- `Count` returns the batch error unchanged, with count 0. -/
theorem Count_returns_batch_error (runner : CypherRunner) (e : Error)
    (h : (runner [countQuery]).err = some e) :
    (Count runner).result = .ok (0, some e) := by
  simp [Count, h]

/-- C4: when the batch of `Delete` succeeds and the statistics of the
label-stripping statement are available, `deleted` is true exactly when they
report updates and a positive number of removed labels, no error is returned,
and replacing the outcome of the second (orphan-removal) statement by any
other outcome leaves the result unchanged. -/
theorem Delete_flag_iff_labels_removed (runner : CypherRunner) (uuid : String) (s1 : Stats)
    (herr : (runner [clearNode uuid, removeNodeIfUnused uuid]).err = none)
    (hstats : ((runner [clearNode uuid, removeNodeIfUnused uuid]).outcome 0).stats = .ok s1) :
    (Delete runner uuid).batches = [[clearNode uuid, removeNodeIfUnused uuid]]
      ∧ (Delete runner uuid).result.2 = none
      ∧ ((Delete runner uuid).result.1 = true
          ↔ (s1.ContainsUpdates = true ∧ s1.LabelsRemoved > 0))
      ∧ ∀ o2 : QueryOutcome,
          (Delete (replaceOutcome runner 1 o2) uuid).result = (Delete runner uuid).result := by
  have _ := herr
  refine ⟨rfl, ?_, ?_, ?_⟩
  · simp [Delete, hstats]
  · simp [Delete, hstats]
  · intro o2
    simp [Delete, replaceOutcome]

theorem Delete_flag_iff_labels_removed_witness :
    (Delete statsRunner "m-1").batches = [[clearNode "m-1", removeNodeIfUnused "m-1"]]
      ∧ (Delete statsRunner "m-1").result.2 = none
      ∧ ((Delete statsRunner "m-1").result.1 = true
          ↔ ((Stats.mk true 2).ContainsUpdates = true ∧ (Stats.mk true 2).LabelsRemoved > 0))
      ∧ ∀ o2 : QueryOutcome,
          (Delete (replaceOutcome statsRunner 1 o2) "m-1").result
            = (Delete statsRunner "m-1").result :=
  Delete_flag_iff_labels_removed statsRunner "m-1" (Stats.mk true 2) rfl rfl

/-- C6: when the read batch succeeds and binds zero rows, `Read` returns the
empty membership record, `found = false` and no error. -/
theorem Read_zero_rows_not_found (runner : CypherRunner) (uuid : String)
    (herr : (runner [readQuery uuid]).err = none)
    (hrows : ((runner [readQuery uuid]).outcome 0).membershipRows = []) :
    (Read runner uuid).result = (emptyMembership, false, none) := by
  simp [Read, herr, hrows]

theorem Read_zero_rows_not_found_witness :
    (Read quietRunner "m-1").result = (emptyMembership, false, none) :=
  Read_zero_rows_not_found quietRunner "m-1" rfl rfl

/-- C7: when the read batch succeeds with a non-empty result whose first row
is `first`, `Read` returns `found = true`, no error, and `first` with its role
list post-processed: a role list of exactly one entry with an empty roleUUID
becomes the empty list (all other fields kept), and in every other case the
row is returned unchanged.  Consequently a found record never carries a
one-element role list whose only roleUUID is empty. -/
theorem Read_normalises_first_row (runner : CypherRunner) (uuid : String) :
    (∀ (first : membership) (rest : List membership),
        (runner [readQuery uuid]).err = none →
        ((runner [readQuery uuid]).outcome 0).membershipRows = first :: rest →
        (Read runner uuid).result.2 = (true, none)
        ∧ (∀ r : role, first.MembershipRoles = [r] → r.RoleUUID = "" →
            (Read runner uuid).result.1 = { first with MembershipRoles := [] })
        ∧ ((¬ ∃ r : role, first.MembershipRoles = [r] ∧ r.RoleUUID = "") →
            (Read runner uuid).result.1 = first))
      ∧ ((Read runner uuid).result.2.1 = true →
          ¬ ∃ r : role, (Read runner uuid).result.1.MembershipRoles = [r] ∧ r.RoleUUID = "") := by
  have key : ∀ roles : List role,
      (roles.length = 1 ∧ (roles.head?.map role.RoleUUID) = some "")
        ↔ ∃ r : role, roles = [r] ∧ r.RoleUUID = "" := by
    intro roles
    constructor
    · rintro ⟨hl, hh⟩
      match roles, hl, hh with
      | [r], _, hh => exact ⟨r, rfl, by simpa using hh⟩
    · rintro ⟨r, rfl, hr⟩
      simp [hr]
  constructor
  · intro first rest herr hrows
    refine ⟨?_, ?_, ?_⟩
    · simp only [Read, herr, hrows]
      split <;> rfl
    · intro r hr he
      have hc : first.MembershipRoles.length = 1
          ∧ (first.MembershipRoles.head?.map role.RoleUUID) = some "" :=
        (key _).2 ⟨r, hr, he⟩
      simp only [Read, herr, hrows]
      rw [if_pos hc]
    · intro hn
      have hc : ¬ (first.MembershipRoles.length = 1
          ∧ (first.MembershipRoles.head?.map role.RoleUUID) = some "") :=
        fun h => hn ((key _).1 h)
      simp only [Read, herr, hrows]
      rw [if_neg hc]
  · intro hfound
    simp only [Read] at hfound ⊢
    cases herr : (runner [readQuery uuid]).err with
    | some e => simp [herr] at hfound
    | none =>
      cases hrows : ((runner [readQuery uuid]).outcome 0).membershipRows with
      | nil => simp [herr, hrows] at hfound
      | cons first rest =>
        simp only []
        by_cases hc : first.MembershipRoles.length = 1
            ∧ (first.MembershipRoles.head?.map role.RoleUUID) = some ""
        · rw [if_pos hc]
          simp
        · rw [if_neg hc]
          exact fun h => hc ((key _).2 h)

theorem Read_normalises_first_row_witness :
    (Read rowRunner "m-1").result.2 = (true, none)
      ∧ (Read rowRunner "m-1").result.1 = { placeholderRow with MembershipRoles := [] } :=
  have h := (Read_normalises_first_row rowRunner "m-1").1 placeholderRow [] rfl rfl
  ⟨h.1, h.2.1 { RoleUUID := "", InceptionDate := "", TerminationDate := "" } rfl rfl⟩

/-- C8: for every date name and every date string that `timeParse` accepts
as instant `t`, `addDateToQueryParams` returns no error and leaves the map
with the date name bound to the literal string, the name followed by `Epoch`
bound to the integer `t.Unix`, and every other key as before.  `Write` puts
the membership property set into its upsert and a fresh per-role property set
into each role create; a non-empty date that parses contributes both keys to
its set, an empty date contributes neither. -/
theorem addDateToQueryParams_sets_date_and_epoch (timeParse : String → Except Error Time) :
    (∀ (params : Props) (dateName dateVal : String) (t : Time),
        timeParse dateVal = .ok t →
        (addDateToQueryParams timeParse params dateName dateVal).2 = none
        ∧ mapGet (addDateToQueryParams timeParse params dateName dateVal).1 dateName
            = some (.str dateVal)
        ∧ mapGet (addDateToQueryParams timeParse params dateName dateVal).1
              (dateName ++ "Epoch") = some (.int t.Unix)
        ∧ ∀ key : String, key ≠ dateName → key ≠ dateName ++ "Epoch" →
            mapGet (addDateToQueryParams timeParse params dateName dateVal).1 key
              = mapGet params key)
      ∧ (∀ (runner : CypherRunner) (m : membership),
          (Write timeParse runner m).batches = [writeQueries timeParse m]
          ∧ createMembershipQuery m (membershipParams timeParse m) ∈ writeQueries timeParse m
          ∧ (m.InceptionDate ≠ "" → ∀ t, timeParse m.InceptionDate = .ok t →
              mapGet (membershipParams timeParse m) "inceptionDate"
                = some (.str m.InceptionDate)
              ∧ mapGet (membershipParams timeParse m) "inceptionDateEpoch"
                = some (.int t.Unix))
          ∧ (m.InceptionDate = "" →
              mapGet (membershipParams timeParse m) "inceptionDate" = none
              ∧ mapGet (membershipParams timeParse m) "inceptionDateEpoch" = none)
          ∧ (m.TerminationDate ≠ "" → ∀ t, timeParse m.TerminationDate = .ok t →
              mapGet (membershipParams timeParse m) "terminationDate"
                = some (.str m.TerminationDate)
              ∧ mapGet (membershipParams timeParse m) "terminationDateEpoch"
                = some (.int t.Unix))
          ∧ (m.TerminationDate = "" →
              mapGet (membershipParams timeParse m) "terminationDate" = none
              ∧ mapGet (membershipParams timeParse m) "terminationDateEpoch" = none)
          ∧ ∀ mr ∈ m.MembershipRoles,
              createRoleQuery m.UUID mr (roleParams timeParse mr) ∈ writeQueries timeParse m
              ∧ (∀ key : String, key ≠ "inceptionDate" → key ≠ "inceptionDateEpoch" →
                  key ≠ "terminationDate" → key ≠ "terminationDateEpoch" →
                  mapGet (roleParams timeParse mr) key = none)
              ∧ (mr.InceptionDate ≠ "" → ∀ t, timeParse mr.InceptionDate = .ok t →
                  mapGet (roleParams timeParse mr) "inceptionDate"
                    = some (.str mr.InceptionDate)
                  ∧ mapGet (roleParams timeParse mr) "inceptionDateEpoch"
                    = some (.int t.Unix))
              ∧ (mr.InceptionDate = "" →
                  mapGet (roleParams timeParse mr) "inceptionDate" = none
                  ∧ mapGet (roleParams timeParse mr) "inceptionDateEpoch" = none)
              ∧ (mr.TerminationDate ≠ "" → ∀ t, timeParse mr.TerminationDate = .ok t →
                  mapGet (roleParams timeParse mr) "terminationDate"
                    = some (.str mr.TerminationDate)
                  ∧ mapGet (roleParams timeParse mr) "terminationDateEpoch"
                    = some (.int t.Unix))
              ∧ (mr.TerminationDate = "" →
                  mapGet (roleParams timeParse mr) "terminationDate" = none
                  ∧ mapGet (roleParams timeParse mr) "terminationDateEpoch" = none)) := by
  constructor
  · intro params dateName dateVal t ht
    refine ⟨?_, addDate_get_name _ _ _ _, addDate_get_epoch _ _ _ _ t ht, ?_⟩
    · simp [addDateToQueryParams, ht]
    · intro key h1 h2
      exact addDate_get_other _ _ _ _ _ h1 h2
  · intro runner m
    refine ⟨rfl, ?_, (membershipParams_inception timeParse m).1,
      (membershipParams_inception timeParse m).2,
      (membershipParams_termination timeParse m).1,
      (membershipParams_termination timeParse m).2, ?_⟩
    · rw [writeQueries_eq]
      simp
    · intro mr hmr
      refine ⟨?_, ?_, (roleParams_inception timeParse mr).1,
        (roleParams_inception timeParse mr).2,
        (roleParams_termination timeParse mr).1,
        (roleParams_termination timeParse mr).2⟩
      · rw [writeQueries_eq]
        simp only [List.mem_append, List.mem_cons, List.mem_map]
        exact Or.inr (Or.inr ⟨mr, hmr, rfl⟩)
      · intro key k1 k2 k3 k4
        unfold roleParams
        by_cases hi : mr.InceptionDate = "" <;> by_cases ht : mr.TerminationDate = ""
        · simp [hi, ht, mapGet]
        · simp only [ne_eq, hi, ht, not_true_eq_false, not_false_eq_true, if_true, if_false]
          rw [addDate_get_other _ _ _ _ _ k3 (by rw [terminationEpoch_key]; exact k4)]
          rfl
        · simp only [ne_eq, hi, ht, not_true_eq_false, not_false_eq_true, if_true, if_false]
          rw [addDate_get_other _ _ _ _ _ k1 (by rw [inceptionEpoch_key]; exact k2)]
          rfl
        · simp only [ne_eq, hi, ht, not_true_eq_false, not_false_eq_true, if_true, if_false]
          rw [addDate_get_other _ _ _ _ _ k3 (by rw [terminationEpoch_key]; exact k4),
            addDate_get_other _ _ _ _ _ k1 (by rw [inceptionEpoch_key]; exact k2)]
          rfl

theorem addDateToQueryParams_sets_date_and_epoch_witness :
    sampleTimeParse "1970-01-01T00:01:40Z" = .ok { Unix := 100 }
      ∧ (addDateToQueryParams sampleTimeParse [("uuid", .str "m-1")] "inceptionDate"
            "1970-01-01T00:01:40Z").2 = none
      ∧ mapGet (addDateToQueryParams sampleTimeParse [("uuid", .str "m-1")] "inceptionDate"
            "1970-01-01T00:01:40Z").1 ("inceptionDate" ++ "Epoch") = some (.int 100)
      ∧ mapGet (membershipParams sampleTimeParse sampleMembership) "inceptionDateEpoch"
          = some (.int 100)
      ∧ mapGet (membershipParams sampleTimeParse sampleMembership) "terminationDate"
          = none := by
  have hp : sampleTimeParse "1970-01-01T00:01:40Z" = .ok { Unix := 100 } := by
    simp [sampleTimeParse]
  have h := addDateToQueryParams_sets_date_and_epoch sampleTimeParse
  have h1 := h.1 [("uuid", .str "m-1")] "inceptionDate" "1970-01-01T00:01:40Z"
    { Unix := 100 } hp
  have h2 := h.2 quietRunner sampleMembership
  exact ⟨hp, h1.1, h1.2.2.1, (h2.2.2.1 (by decide) { Unix := 100 } hp).2,
    (h2.2.2.2.2.2.1 rfl).1⟩

/-- A membership with an empty uuid on a runner whose batch succeeds: `Write`
submits its batch and returns nil (counterexample to C9). -/
theorem Write_empty_uuid_succeeds :
    noUuidMembership.UUID = ""
      ∧ (Write sampleTimeParse quietRunner noUuidMembership).batches.map List.length = [4]
      ∧ (Write sampleTimeParse quietRunner noUuidMembership).result = none := by
  decide

/-- C9 (amended): `Write` does not check uuid presence.  For every membership
whose uuid is the empty string it submits the one batch built for that
membership and returns exactly what the runner's batch call returns: nil when
the batch succeeds, the batch error when it fails. -/
theorem Write_empty_uuid_returns_batch_result (timeParse : String → Except Error Time)
    (runner : CypherRunner) (m : membership) (huuid : m.UUID = "") :
    (Write timeParse runner m).batches = [writeQueries timeParse m]
      ∧ (Write timeParse runner m).result = (runner (writeQueries timeParse m)).err
      ∧ ((runner (writeQueries timeParse m)).err = none →
          (Write timeParse runner m).result = none)
      ∧ (deletePreviousIdentifiersQuery "" ∈ writeQueries timeParse m) := by
  refine ⟨rfl, rfl, fun h => h, ?_⟩
  rw [writeQueries_eq, huuid]
  simp

theorem Write_empty_uuid_returns_batch_result_witness :
    (Write sampleTimeParse failingRunner noUuidMembership).result
        = (failingRunner (writeQueries sampleTimeParse noUuidMembership)).err
      ∧ (Write sampleTimeParse quietRunner noUuidMembership).result = none :=
  ⟨(Write_empty_uuid_returns_batch_result sampleTimeParse failingRunner
      noUuidMembership rfl).2.1,
   (Write_empty_uuid_returns_batch_result sampleTimeParse quietRunner
      noUuidMembership rfl).2.2.1 rfl⟩

/-- C10 (evaluation at the failing input): on a successful batch that binds
zero rows, `Count` indexes `results[0]` and panics instead of returning a
`(count, nil)` pair. -/
theorem Count_zero_rows_panics :
    (quietRunner [countQuery]).err = none
      ∧ ((quietRunner [countQuery]).outcome 0).countRows = []
      ∧ (Count quietRunner).result = .error (.indexOutOfRange 0 0) := by
  refine ⟨rfl, rfl, rfl⟩

/-- When the count batch succeeds and a first row exists, `Count` returns that
row's value and no error. -/
theorem Count_first_row (runner : CypherRunner) (first : Int) (rest : List Int)
    (herr : (runner [countQuery]).err = none)
    (hrows : ((runner [countQuery]).outcome 0).countRows = first :: rest) :
    (Count runner).result = .ok (first, none) := by
  simp [Count, herr, hrows]

end Memberships
